import Mathlib

/-!
Verification of the mapwhere-backend Reachability & Fan-out Engine.

Shallow embedding of the relevant parts of `api/consumers.py` and
`api/models.py`. Django rows become Lean structures, querysets become
lists, channel-layer sends become event lists, and exceptions escaping a
command handler become `Except` errors. Python float fields that only
travel as payload are embedded as `Int`; areas compared by the region
resolver are embedded as `ℚ`.
-/

namespace Mapwhere

/-! ## Region resolver tie-break (`handle_update_location_bubble`, consumers.py) -/

/-- One entry of `possible_regions`: name, travel mode of the probing payload
(`walk` or `transit`), and the shapely area of the region's 3-minute isochrone. -/
structure RegionCandidate where
  name : String
  travel_mode : String
  area : ℚ
deriving DecidableEq

/-- One iteration of the tie-break loop of `handle_update_location_bubble`:
`if user_region["area"] < region["area"] and user_region["travel_mode"] == "walk"
and region["travel_mode"] == "transit" and region["name"] != "central_america":
user_region = region`. -/
def tieBreakStep (user_region region : RegionCandidate) : RegionCandidate :=
  if user_region.area < region.area ∧ user_region.travel_mode = "walk" ∧
      region.travel_mode = "transit" ∧ region.name ≠ "central_america" then
    region
  else
    user_region

/-- The resolver selection over `possible_regions`: `user_region =
possible_regions[0]` followed by the tie-break loop over `possible_regions[1:]`;
an empty candidate set yields the `region_not_found` branch (`none`). -/
def select_user_region : List RegionCandidate → Option RegionCandidate
  | [] => none
  | c :: rest => some (rest.foldl tieBreakStep c)

/-! ## Rooms, membership, authorization (consumers.py, models.py) -/

/-- A `Room` row: uuid primary key (embedded as `Nat`), blank-defaulted display
name, `private` flag defaulting to `False`, and its member set. -/
structure RoomRow where
  id : Nat
  display_name : String
  privacy : Bool
  members : List Nat
deriving DecidableEq

/-- `get_room`: `Room.objects.get_or_create(id=room_id)`. A freshly created row
carries the model defaults: blank display name, `private=False`, no members.
Returns the room together with the updated room table. -/
def get_room (rooms : List RoomRow) (room_id : Nat) : RoomRow × List RoomRow :=
  match rooms.find? (fun r => r.id = room_id) with
  | some r => (r, rooms)
  | none => (⟨room_id, "", false, []⟩, rooms ++ [⟨room_id, "", false, []⟩])

/-- `connect`: the room referenced by the URL route is resolved through
`get_room` before the websocket is accepted, so it is created on demand. -/
def connect (rooms : List RoomRow) (room_id : Nat) : RoomRow × List RoomRow :=
  get_room rooms room_id

/-- `user_is_not_room_member`: `self.user not in self.room.members.all()`. -/
def user_is_not_room_member (user : Nat) (room : RoomRow) : Bool :=
  decide (user ∉ room.members)

/-- `user_not_allowed`: `self.user_is_not_room_member() and self.room.private`. -/
def user_not_allowed (user : Nat) (room : RoomRow) : Bool :=
  user_is_not_room_member user room && room.privacy

/-! ## Channel-layer events -/

/-- Destination of a channel-layer send: `channel_layer.send(self.channel_name, ...)`
goes to the issuing member, `channel_layer.group_send(room, ...)` to a room group. -/
inductive EventTarget
  | issuer
  | group (room : Nat)
deriving DecidableEq

/-- One channel-layer message: its destination, its `type` field, and any
payload rendered as a string. -/
structure Evt where
  target : EventTarget
  kind : String
  body : String
deriving DecidableEq

/-! ## fetch_messages and the join-request path (consumers.py) -/

/-- A `Message` row as rendered by `message_to_json`. -/
structure MessageRow where
  user_display : String
  content : String
  timestamp : Nat
deriving DecidableEq

/-- Ordering used by `order_by("-timestamp")` on messages. -/
def msgTsGE (a b : MessageRow) : Prop := b.timestamp ≤ a.timestamp

instance : DecidableRel msgTsGE := fun a b => by unfold msgTsGE; infer_instance

/-- `fetch_messages`: the ten most recent messages, reversed back to
chronological order, each sent to the issuer as a `fetching_message` event. -/
def fetch_messages (msgs : List MessageRow) : List Evt :=
  (((List.insertionSort msgTsGE msgs).take 10).reverse).map fun m =>
    ⟨.issuer, "fetching_message", m.user_display ++ ": " ++ m.content⟩

/-- `handle_fetch_messages`: `if not user_not_allowed: fetch_messages()`. A
disallowed user gets nothing — no reply event and no join-request side effect.
The join-request table is threaded through unchanged to make that visible. -/
def handle_fetch_messages (u : Nat) (room : RoomRow) (msgs : List MessageRow)
    (join_requests : List (Nat × Nat)) : List Evt × List (Nat × Nat) :=
  if user_not_allowed u room then ([], join_requests)
  else (fetch_messages msgs, join_requests)

/-- `get_or_create_new_join_request`: `JoinRequest.objects.get_or_create(user=...,
room=...)`; returns the `created` flag and the updated join-request table. -/
def get_or_create_new_join_request (u room_id : Nat) (jrs : List (Nat × Nat)) :
    Bool × List (Nat × Nat) :=
  if (u, room_id) ∈ jrs then (false, jrs) else (true, jrs ++ [(u, room_id)])

/-- `handle_fetch_allowed_status`: a disallowed user triggers the idempotent
join-request creation, a `refresh_notifications` to every room of every member
when one was created, a room-wide `refresh_join_requests`, and a `not_allowed`
reply to the issuer; an allowed user just gets `allowed`. `rooms_to_notify` is
the result of `get_rooms_of_all_members`. -/
def handle_fetch_allowed_status (u : Nat) (room : RoomRow) (rooms_to_notify : List Nat)
    (jrs : List (Nat × Nat)) : List Evt × List (Nat × Nat) :=
  if user_not_allowed u room then
    let res := get_or_create_new_join_request u room.id jrs
    ((if res.1 then rooms_to_notify.map (fun r => ⟨.group r, "refresh_notifications", ""⟩)
      else []) ++
      [⟨.group room.id, "refresh_join_requests", ""⟩, ⟨.issuer, "not_allowed", ""⟩],
      res.2)
  else ([⟨.issuer, "allowed", ""⟩], jrs)

/-! ## Theorems: C1 -/

/-- C1, counterexample: the tie-break loop only excludes `central_america` — a
transit candidate of region `africa` with the larger area is selected, not the
walk candidate the claim says is retained. -/
theorem C1_africa_transit_selected :
    select_user_region [⟨"asia", "walk", 1⟩, ⟨"africa", "transit", 2⟩] =
      some ⟨"africa", "transit", 2⟩ ∧
    select_user_region [⟨"asia", "walk", 1⟩, ⟨"africa", "transit", 2⟩] ≠
      some ⟨"asia", "walk", 1⟩ := by
  constructor
  · decide
  · decide

/-- C1 (amended): for a candidate set holding a walk candidate followed by a
transit candidate of strictly larger area, the resolver selects the transit
candidate unless its region is `central_america`, in which case the walk
candidate is retained. `africa` is not excluded by the tie-break. -/
theorem C1_tie_break (w t : RegionCandidate)
    (hw : w.travel_mode = "walk") (ht : t.travel_mode = "transit")
    (ha : w.area < t.area) :
    select_user_region [w, t] =
      some (if t.name = "central_america" then w else t) := by
  by_cases hc : t.name = "central_america"
  · simp [select_user_region, tieBreakStep, hc]
  · simp [select_user_region, tieBreakStep, hc, hw, ht, ha]

/-- Witness for C1_tie_break at a concrete candidate pair. -/
theorem C1_tie_break_witness :
    select_user_region
        [⟨"britishisles", "walk", 1⟩, ⟨"westcentraleurope", "transit", 2⟩] =
      some (if "westcentraleurope" = "central_america" then
        (⟨"britishisles", "walk", 1⟩ : RegionCandidate)
      else ⟨"westcentraleurope", "transit", 2⟩) :=
  C1_tie_break ⟨"britishisles", "walk", 1⟩ ⟨"westcentraleurope", "transit", 2⟩
    rfl rfl (by decide)

/-! ## Theorems: C10 -/

/-- C10: connecting to any room id never fails: after `connect` a room with the
URL's id exists in the table, the returned room carries that id, and when no
such room existed it was created public with an empty member set. -/
theorem C10_connect_creates_room (rooms : List RoomRow) (room_id : Nat) :
    (∃ r ∈ (connect rooms room_id).2, r.id = room_id) ∧
    (connect rooms room_id).1.id = room_id ∧
    (rooms.find? (fun r => r.id = room_id) = none →
      (connect rooms room_id).1.privacy = false ∧
        (connect rooms room_id).1.members = []) := by
  unfold connect get_room
  cases hfind : rooms.find? (fun r => r.id = room_id) with
  | some r =>
      have hmem : r ∈ rooms := List.mem_of_find?_eq_some hfind
      have hid : r.id = room_id := by
        have := List.find?_some hfind
        exact of_decide_eq_true this
      exact ⟨⟨r, hmem, hid⟩, hid, fun h => nomatch h⟩
  | none =>
      refine ⟨⟨⟨room_id, "", false, []⟩, ?_, rfl⟩, rfl, fun _ => ⟨rfl, rfl⟩⟩
      simp

/-- Witness for C10_connect_creates_room on the empty room table, with its
creation-defaults consequence discharged. -/
theorem C10_connect_witness :
    ((∃ r ∈ (connect [] 5).2, r.id = 5) ∧
      (connect [] 5).1.id = 5 ∧
      (List.find? (fun r => r.id = 5) ([] : List RoomRow) = none →
        (connect [] 5).1.privacy = false ∧ (connect [] 5).1.members = [])) ∧
    ((connect [] 5).1.privacy = false ∧ (connect [] 5).1.members = []) :=
  ⟨C10_connect_creates_room [] 5, (C10_connect_creates_room [] 5).2.2 rfl⟩

/-! ## Theorems: C2 -/

/-- C2, counterexample: user 12 is not a member of the private room, yet
`handle_fetch_messages` emits no event at all (in particular no `not_allowed`)
and creates no `JoinRequest` row — the claimed behavior belongs to
`fetch_allowed_status`/`join_room`, not to `fetch_messages`. -/
theorem C2_fetch_messages_silent :
    user_not_allowed 12 ⟨1, "", true, [10, 11]⟩ = true ∧
    handle_fetch_messages 12 ⟨1, "", true, [10, 11]⟩ [] [] = ([], []) := by
  constructor
  · decide
  · decide

/-- C2 (amended): a non-member of a private room sending `fetch_allowed_status`
receives a `not_allowed` reply and a `JoinRequest` row for (issuer, room) exists
afterwards; retrying the command leaves the join-request table unchanged, so at
most one row is ever created. -/
theorem C2_allowed_status_join_request (u : Nat) (room : RoomRow)
    (rooms_to_notify : List Nat) (jrs jrs1 jrs2 : List (Nat × Nat))
    (evts1 evts2 : List Evt)
    (h : user_not_allowed u room = true) (h0 : (u, room.id) ∉ jrs)
    (e1 : handle_fetch_allowed_status u room rooms_to_notify jrs = (evts1, jrs1))
    (e2 : handle_fetch_allowed_status u room rooms_to_notify jrs1 = (evts2, jrs2)) :
    (⟨.issuer, "not_allowed", ""⟩ : Evt) ∈ evts1 ∧ (u, room.id) ∈ jrs1 ∧
    (⟨.issuer, "not_allowed", ""⟩ : Evt) ∈ evts2 ∧ jrs2 = jrs1 ∧
    jrs1.count (u, room.id) = 1 := by
  rw [handle_fetch_allowed_status] at e1 e2
  rw [h] at e1 e2
  rw [get_or_create_new_join_request, if_neg h0] at e1
  simp only [if_true] at e1
  obtain ⟨rfl, rfl⟩ := Prod.mk.injEq .. ▸ e1
  have hmem : (u, room.id) ∈ jrs ++ [(u, room.id)] := by simp
  rw [get_or_create_new_join_request, if_pos hmem] at e2
  simp only [if_false, Bool.false_eq_true] at e2
  obtain ⟨rfl, rfl⟩ := Prod.mk.injEq .. ▸ e2
  refine ⟨by simp, hmem, by simp, rfl, ?_⟩
  rw [List.count_append, List.count_eq_zero.mpr h0]
  simp

/-- Witness for C2_allowed_status_join_request at a concrete private room. -/
theorem C2_allowed_status_witness :
    (⟨.issuer, "not_allowed", ""⟩ : Evt) ∈
      (handle_fetch_allowed_status 3 ⟨1, "", true, [1, 2]⟩ [1] []).1 ∧
    (3, 1) ∈ (handle_fetch_allowed_status 3 ⟨1, "", true, [1, 2]⟩ [1] []).2 ∧
    (⟨.issuer, "not_allowed", ""⟩ : Evt) ∈
      (handle_fetch_allowed_status 3 ⟨1, "", true, [1, 2]⟩ [1]
        (handle_fetch_allowed_status 3 ⟨1, "", true, [1, 2]⟩ [1] []).2).1 ∧
    (handle_fetch_allowed_status 3 ⟨1, "", true, [1, 2]⟩ [1]
        (handle_fetch_allowed_status 3 ⟨1, "", true, [1, 2]⟩ [1] []).2).2 =
      (handle_fetch_allowed_status 3 ⟨1, "", true, [1, 2]⟩ [1] []).2 ∧
    ((handle_fetch_allowed_status 3 ⟨1, "", true, [1, 2]⟩ [1] []).2).count (3, 1) = 1 :=
  C2_allowed_status_join_request 3 ⟨1, "", true, [1, 2]⟩ [1] [] _ _ _ _
    (by decide) (by decide) rfl rfl

/-! ## fetch_places duplicate merge (consumers.py) -/

/-- One row of the ranked place listing: `values("place_id", "lat", "lng")`
with the `total_votes` and `user_voted_for` annotations. -/
structure PlaceRow where
  place_id : String
  lat : Int
  lng : Int
  total_votes : Nat
  user_voted_for : Bool
deriving DecidableEq

/-- The duplicate-merge loop of `fetch_places`: `for index, place in
enumerate(places[1:]): if place["place_id"] == places[0]["place_id"]:
places[0]["total_votes"] += place["total_votes"]; skip_index = index + 1`.
`i` carries `index + 1`; returns the accumulated head vote count and the last
`skip_index`. -/
def dedupLoop (head_place_id : String) (total_votes : Nat) (skip : Option Nat)
    (i : Nat) : List PlaceRow → Nat × Option Nat
  | [] => (total_votes, skip)
  | p :: ps =>
      if p.place_id = head_place_id then
        dedupLoop head_place_id (total_votes + p.total_votes) (some i) (i + 1) ps
      else
        dedupLoop head_place_id total_votes skip (i + 1) ps

/-- `fetch_places` (consumers.py 138-163): the already ranked ten-row list is
taken as input; the duplicate merge runs only when the top row has
`user_voted_for`, and `if skip_index: return places[:skip_index] +
places[skip_index + 1:]` drops only the slice index recorded last. -/
def fetch_places_dedup (places : List PlaceRow) : List PlaceRow :=
  match places with
  | [] => []
  | p0 :: rest =>
      if p0.user_voted_for then
        match (dedupLoop p0.place_id p0.total_votes none 1 rest).2 with
        | some k =>
            if k ≠ 0 then
              (({ p0 with total_votes := (dedupLoop p0.place_id p0.total_votes none 1 rest).1 } :: rest).take k) ++
                (({ p0 with total_votes := (dedupLoop p0.place_id p0.total_votes none 1 rest).1 } :: rest).drop (k + 1))
            else
              { p0 with total_votes := (dedupLoop p0.place_id p0.total_votes none 1 rest).1 } :: rest
        | none => p0 :: rest
      else p0 :: rest

/-! ## Notification validation (models.py) -/

/-- The payload columns of a `Notification` row. Foreign keys are `Option Nat`
ids; `now_private`/`now_public` are nullable booleans. The `voted_place` column
is not declared in `api/models.py` but is written by `voted_place_notification`
and read by `get_user_notifications` (api/consumers.py), so it is included as
the ninth payload column. -/
structure NotificationPayload where
  message : Option Nat
  user_joined : Option Nat
  user_left : Option Nat
  user_location : Option Nat
  added_place : Option Nat
  join_request : Option Nat
  now_private : Option Bool
  now_public : Option Bool
  voted_place : Option Nat
deriving DecidableEq

/-- Python truthiness of a nullable boolean column: only `True` is truthy. -/
def boolTruthy : Option Bool → Bool
  | some true => true
  | _ => false

/-- The message of the `ValidationError` raised by `Notification.clean`. -/
def notification_clean_error : String :=
  "Notification must be for either a new message, user leaving, user joining, join request, user location, user adding place or privacy change. "

/-- `Notification.clean` (models.py 291-407), run by `save → full_clean`: the
mutual-exclusion check over `message`, `user_joined`, `user_left`,
`join_request`, `now_public`, `now_private`, `user_location` and `added_place`.
`voted_place` does not appear in any of the disjuncts. -/
def notification_clean (n : NotificationPayload) : Except String Unit :=
  if (!(n.message.isSome || n.user_joined.isSome || n.user_left.isSome ||
        n.join_request.isSome || boolTruthy n.now_public || boolTruthy n.now_private ||
        n.user_location.isSome || n.added_place.isSome))
      || (n.message.isSome && (n.user_joined.isSome || n.user_left.isSome ||
          n.join_request.isSome || boolTruthy n.now_public || boolTruthy n.now_private ||
          n.user_location.isSome || n.added_place.isSome))
      || (n.user_joined.isSome && (n.message.isSome || n.user_left.isSome ||
          n.join_request.isSome || boolTruthy n.now_public || boolTruthy n.now_private ||
          n.user_location.isSome || n.added_place.isSome))
      || (n.user_left.isSome && (n.message.isSome || n.user_joined.isSome ||
          n.join_request.isSome || boolTruthy n.now_public || boolTruthy n.now_private ||
          n.user_location.isSome || n.added_place.isSome))
      || (n.join_request.isSome && (n.message.isSome || n.user_joined.isSome ||
          n.user_left.isSome || boolTruthy n.now_public || boolTruthy n.now_private ||
          n.user_location.isSome || n.added_place.isSome))
      || (boolTruthy n.now_public && (n.message.isSome || n.user_joined.isSome ||
          n.user_left.isSome || n.join_request.isSome || boolTruthy n.now_private ||
          n.user_location.isSome || n.added_place.isSome))
      || (boolTruthy n.now_private && (n.message.isSome || n.user_joined.isSome ||
          n.user_left.isSome || n.join_request.isSome || boolTruthy n.now_public ||
          n.user_location.isSome || n.added_place.isSome))
      || (n.user_location.isSome && (n.message.isSome || n.user_joined.isSome ||
          n.user_left.isSome || n.join_request.isSome || boolTruthy n.now_public ||
          boolTruthy n.now_private || n.added_place.isSome))
      || (n.added_place.isSome && (n.message.isSome || n.user_joined.isSome ||
          n.user_left.isSome || n.join_request.isSome || boolTruthy n.now_public ||
          boolTruthy n.now_private || n.user_location.isSome))
  then Except.error notification_clean_error
  else Except.ok ()

/-- The number of the nine spec payload kinds set on a notification write. -/
def numKindsSet (n : NotificationPayload) : Nat :=
  (if n.message.isSome then 1 else 0) + (if n.user_joined.isSome then 1 else 0) +
    (if n.user_left.isSome then 1 else 0) + (if n.join_request.isSome then 1 else 0) +
    (if boolTruthy n.now_public then 1 else 0) + (if boolTruthy n.now_private then 1 else 0) +
    (if n.user_location.isSome then 1 else 0) + (if n.added_place.isSome then 1 else 0) +
    (if n.voted_place.isSome then 1 else 0)

/-- The notification written by `voted_place_notification` (consumers.py
500-504): only the place-voted kind is set. -/
def votedPlaceOnly : NotificationPayload :=
  ⟨none, none, none, none, none, none, none, none, some 7⟩

/-- A write with both the new-message and the place-voted kinds set. -/
def messageAndVotedPlace : NotificationPayload :=
  ⟨some 1, none, none, none, none, none, none, none, some 7⟩

/-! ## LocationBubble validation and the update_location_bubble commit (models.py, consumers.py) -/

/-- `LocationBubble.clean` (models.py 214-223): zero budget, transit in a
region without transit data, and budgets over 7200 seconds are rejected. -/
def location_bubble_clean (hours minutes : Nat) (region transportation : String) :
    Except String Unit :=
  if hours = 0 ∧ minutes = 0 then
    Except.error "Total travel time cannot be zero."
  else if (region = "africa" ∨ region = "central_america") ∧ transportation = "transit" then
    Except.error ("No transit data for " ++ region ++ ".")
  else if hours * 3600 + minutes * 60 > 7200 then
    Except.error "Total travel time cannot exceed 2 hours."
  else Except.ok ()

/-- A `LocationBubble` row. -/
structure LocationBubbleRow where
  user : Nat
  room : Nat
  address : String
  latitude : Int
  longitude : Int
  hours : Nat
  minutes : Nat
  transportation : String
  region : String
  place_id : String
deriving DecidableEq

/-- `LocationBubble.objects.update_or_create(user=..., room=..., defaults=...)`
guarded by the overridden `save → full_clean`: validation runs before any row
is written, so a `ValidationError` leaves the table untouched. -/
def location_bubble_upsert (bubbles : List LocationBubbleRow)
    (b : LocationBubbleRow) : Except String (List LocationBubbleRow) :=
  match location_bubble_clean b.hours b.minutes b.region b.transportation with
  | Except.error e => Except.error e
  | Except.ok _ =>
      Except.ok
        (if bubbles.any (fun x => x.user == b.user && x.room == b.room) then
          bubbles.map (fun x => if x.user == b.user && x.room == b.room then b else x)
        else bubbles ++ [b])

/-- The websocket payload of an `update_location_bubble` command. -/
structure BubbleCmd where
  address : String
  latitude : Int
  longitude : Int
  transportation : String
  hours : Nat
  minutes : Nat
  place_id : String
deriving DecidableEq

/-- The per-room broadcast loop after a successful location-bubble write:
`refresh_notifications` then `refresh_users_missing_locations` per room. -/
def notifyRoomsLocation : List Nat → List Evt
  | [] => []
  | r :: rs =>
      ⟨.group r, "refresh_notifications", ""⟩ ::
        ⟨.group r, "refresh_users_missing_locations", ""⟩ :: notifyRoomsLocation rs

/-- The persistence-and-broadcast tail of `handle_update_location_bubble`
(consumers.py 1280-1305), after a service region has been resolved. A
`ValidationError` raised by the write escapes the command task: the store is
unchanged and no channel event is emitted. On success the bubble is upserted,
`recalculate_intersection` goes to the room, and every room of every member
gets `refresh_notifications` and `refresh_users_missing_locations`. -/
def update_location_bubble_commit (u : Nat) (room : RoomRow)
    (rooms_to_notify : List Nat) (bubbles : List LocationBubbleRow)
    (cmd : BubbleCmd) (region : String) : List LocationBubbleRow × List Evt :=
  match location_bubble_upsert bubbles
      ⟨u, room.id, cmd.address, cmd.latitude, cmd.longitude, cmd.hours,
        cmd.minutes, cmd.transportation, region, cmd.place_id⟩ with
  | Except.error _ => (bubbles, [])
  | Except.ok bubbles1 =>
      (bubbles1,
        ⟨.group room.id, "recalculate_intersection", ""⟩ ::
          notifyRoomsLocation rooms_to_notify)

/-! ## calculate_intersection / get_isochrones (consumers.py) -/

/-- An `Intersection` row. -/
structure IntersectionRow where
  room : Nat
  geom_type : String
  coordinates : List (List (List (Int × Int)))
  centroid_lng : Int
  centroid_lat : Int
deriving DecidableEq

/-- `delete_intersection_for_room`: `self.room.intersection_set.all().delete()`. -/
def delete_intersection_for_room (room_id : Nat)
    (inters : List IntersectionRow) : List IntersectionRow :=
  inters.filter fun i => !(i.room == room_id)

/-- The observable outcome of one `get_isochrones` run: how many isochrone
requests were issued, the intersection table afterwards, and the events sent. -/
structure IsochronesOutcome where
  fetch_count : Nat
  intersections : List IntersectionRow
  events : List Evt
deriving DecidableEq

/-- `get_isochrones` (consumers.py 688-739): nothing for a disallowed user;
one isochrone request per bubble and an `isochrones` reply when the profile
count is met (`location_bubbles and ((len(members) > 1 and
len(location_bubbles) > 1) or (len(members) == 1 and
len(location_bubbles) == 1))`); otherwise the room's stored intersection is
deleted and `refresh_area` is broadcast to the room. -/
def get_isochrones (u : Nat) (room : RoomRow) (bubbles : List LocationBubbleRow)
    (inters : List IntersectionRow) : IsochronesOutcome :=
  if user_not_allowed u room then ⟨0, inters, []⟩
  else if bubbles ≠ [] ∧ ((room.members.length > 1 ∧ bubbles.length > 1) ∨
      (room.members.length = 1 ∧ bubbles.length = 1)) then
    ⟨bubbles.length, inters, [⟨.issuer, "isochrones", ""⟩]⟩
  else
    ⟨0, delete_intersection_for_room room.id inters,
      [⟨.group room.id, "refresh_area", ""⟩]⟩

/-! ## Region isochrone batch (consumers.py) -/

/-- The three observable shapes of a Targomo polygon-service response: a
non-JSON body (`ContentTypeError`), a JSON body missing
`data.features[0]` (`KeyError`), or a feature with geometry coordinates. -/
inductive TargomoResponse
  | nonJson
  | wrongShape
  | ok (geometry : List (List (List (Int × Int))))
deriving DecidableEq

/-- The dict built by `get_region_isochrone` from one response. -/
structure RegionIsochrone where
  geometry : List (List (List (Int × Int)))
  region : String
  travel_mode : String
deriving DecidableEq

/-- `get_region_isochrone` (consumers.py 593-606): the parsed feature plus
region and travel mode, or `None` when `ContentTypeError`/`KeyError` is caught
— the failure is logged and the coroutine falls through, returning `None`. -/
def get_region_isochrone (resp : TargomoResponse) (region travel_mode : String) :
    Option RegionIsochrone :=
  match resp with
  | .nonJson => none
  | .wrongShape => none
  | .ok g => some ⟨g, region, travel_mode⟩

/-- The processing loop at the head of `handle_update_location_bubble`
(consumers.py 1218-1244): each gathered entry is subscripted as
`region_isochrone["isochrone"]`, so a `None` entry raises `TypeError` and
aborts the whole command task; the shapely rebuild of the geometry is
abstracted to the identity on its coordinates. -/
def process_region_isochrones :
    List (Option RegionIsochrone) → Except String (List RegionIsochrone)
  | [] => Except.ok []
  | none :: _ => Except.error "TypeError: NoneType object is not subscriptable"
  | some r :: rest => (process_region_isochrones rest).map (fun l => r :: l)

/-! ## Theorems: C4 -/

/-- C4, counterexample: when the top-ranked row is not `user_voted_for` the
merge loop never runs, so two rows sharing place id `b` survive in the
returned listing — the claim's "never contains two rows with the same place
id" fails. -/
theorem C4_duplicates_survive :
    fetch_places_dedup
        [⟨"a", 0, 0, 1, false⟩, ⟨"b", 0, 0, 2, false⟩, ⟨"b", 0, 0, 3, false⟩] =
      [⟨"a", 0, 0, 1, false⟩, ⟨"b", 0, 0, 2, false⟩, ⟨"b", 0, 0, 3, false⟩] ∧
    ¬ List.Pairwise (fun A B : PlaceRow => A.place_id ≠ B.place_id)
        (fetch_places_dedup
          [⟨"a", 0, 0, 1, false⟩, ⟨"b", 0, 0, 2, false⟩, ⟨"b", 0, 0, 3, false⟩]) := by
  constructor
  · rfl
  · decide

/-- The merge loop ignores a prefix that never matches the head place id,
advancing only the index. -/
theorem dedupLoop_no_match (h : String) (xs : List PlaceRow)
    (hxs : ∀ x ∈ xs, x.place_id ≠ h) (v : Nat) (s : Option Nat) (i : Nat)
    (l : List PlaceRow) :
    dedupLoop h v s i (xs ++ l) = dedupLoop h v s (i + xs.length) l := by
  induction xs generalizing i with
  | nil => simp
  | cons x xs ih =>
      have hx : x.place_id ≠ h := hxs x (by simp)
      simp only [List.cons_append, dedupLoop, if_neg hx, List.append_eq]
      rw [ih (fun y hy => hxs y (by simp [hy])) (i + 1)]
      have harith : i + 1 + xs.length = i + (x :: xs).length := by
        simp only [List.length_cons]; omega
      rw [harith]

/-- The merge loop over a match-free tail returns its accumulators. -/
theorem dedupLoop_terminal (h : String) (ys : List PlaceRow)
    (hys : ∀ y ∈ ys, y.place_id ≠ h) (v : Nat) (s : Option Nat) (i : Nat) :
    dedupLoop h v s i ys = (v, s) := by
  induction ys generalizing i with
  | nil => rfl
  | cons y ys ih =>
      have hy : y.place_id ≠ h := hys y (by simp)
      simp only [dedupLoop, if_neg hy]
      exact ih (fun z hz => hys z (by simp [hz])) (i + 1)

/-- C4 (amended): the merge only applies when the top row is `user_voted_for`
and only to later rows sharing the top row's place id; with exactly one such
duplicate, its votes are added into the top row and the duplicate is dropped.
Duplicates among non-top rows, or any duplicates when the top row is not
user-voted-for, are returned untouched (see the counterexample). -/
theorem C4_single_duplicate_merged (p0 d : PlaceRow) (xs ys : List PlaceRow)
    (hv : p0.user_voted_for = true) (hd : d.place_id = p0.place_id)
    (hxs : ∀ x ∈ xs, x.place_id ≠ p0.place_id)
    (hys : ∀ y ∈ ys, y.place_id ≠ p0.place_id) :
    fetch_places_dedup (p0 :: (xs ++ d :: ys)) =
      { p0 with total_votes := p0.total_votes + d.total_votes } :: (xs ++ ys) := by
  have hloop : dedupLoop p0.place_id p0.total_votes none 1 (xs ++ d :: ys) =
      (p0.total_votes + d.total_votes, some (1 + xs.length)) := by
    rw [dedupLoop_no_match p0.place_id xs hxs]
    simp only [dedupLoop, if_pos hd]
    exact dedupLoop_terminal p0.place_id ys hys _ _ _
  have hk : 1 + xs.length = xs.length + 1 := Nat.add_comm 1 xs.length
  simp only [fetch_places_dedup, hv, if_true, hloop, hk]
  rw [if_pos (Nat.succ_ne_zero xs.length)]
  rw [List.take_succ_cons]
  have hdrop : ∀ a : PlaceRow,
      (a :: (xs ++ d :: ys)).drop (xs.length + 1 + 1) = ys := by
    intro a
    rw [List.drop_succ_cons]
    have hsplit : xs ++ d :: ys = (xs ++ [d]) ++ ys := by simp
    rw [hsplit]
    have hlen : xs.length + 1 = (xs ++ [d]).length := by simp
    rw [hlen, List.drop_left]
  rw [hdrop, List.cons_append, List.take_left]

/-- Witness for C4_single_duplicate_merged at a concrete four-row listing. -/
theorem C4_single_duplicate_witness :
    fetch_places_dedup
        [⟨"a", 0, 0, 1, true⟩, ⟨"x", 0, 0, 4, false⟩, ⟨"a", 0, 0, 2, false⟩,
          ⟨"y", 0, 0, 5, true⟩] =
      [⟨"a", 0, 0, 3, true⟩, ⟨"x", 0, 0, 4, false⟩, ⟨"y", 0, 0, 5, true⟩] := by
  have := C4_single_duplicate_merged ⟨"a", 0, 0, 1, true⟩ ⟨"a", 0, 0, 2, false⟩
    [⟨"x", 0, 0, 4, false⟩] [⟨"y", 0, 0, 5, true⟩] rfl rfl (by decide) (by decide)
  simpa using this

/-! ## Theorems: C3 -/

/-- C3 (code bug): `Notification.clean` omits the place-voted kind from its
mutual-exclusion check, so the write performed by `voted_place_notification`
(exactly one of the nine kinds set) is rejected as if no kind were set, while
a write combining the new-message and place-voted kinds passes validation —
both directions of the claimed "succeeds iff exactly one kind" fail. -/
theorem C3_voted_place_not_validated :
    numKindsSet votedPlaceOnly = 1 ∧
    notification_clean votedPlaceOnly = Except.error notification_clean_error ∧
    numKindsSet messageAndVotedPlace = 2 ∧
    notification_clean messageAndVotedPlace = Except.ok () :=
  ⟨rfl, rfl, rfl, rfl⟩

/-! ## Theorems: C6 -/

/-- C6: an `update_location_bubble` write whose budget is zero or exceeds 7200
seconds is rejected by `full_clean` with a `ValidationError`; the bubble table
is unchanged and no channel event (in particular no `recalculate_intersection`,
`refresh_notifications` or `refresh_users_missing_locations`) is emitted. -/
theorem C6_invalid_budget_rejected (u : Nat) (room : RoomRow)
    (rooms_to_notify : List Nat) (bubbles : List LocationBubbleRow)
    (cmd : BubbleCmd) (region : String)
    (h : (cmd.hours = 0 ∧ cmd.minutes = 0) ∨
      cmd.hours * 3600 + cmd.minutes * 60 > 7200) :
    (∃ e, location_bubble_upsert bubbles
        ⟨u, room.id, cmd.address, cmd.latitude, cmd.longitude, cmd.hours,
          cmd.minutes, cmd.transportation, region, cmd.place_id⟩ =
      Except.error e) ∧
    update_location_bubble_commit u room rooms_to_notify bubbles cmd region =
      (bubbles, []) := by
  have hclean : ∃ e, location_bubble_clean cmd.hours cmd.minutes region
      cmd.transportation = Except.error e := by
    unfold location_bubble_clean
    split_ifs with h1 h2 h3
    · exact ⟨_, rfl⟩
    · exact ⟨_, rfl⟩
    · exact ⟨_, rfl⟩
    · exfalso
      rcases h with h | h
      · exact h1 h
      · exact h3 h
  obtain ⟨e, he⟩ := hclean
  have hup : location_bubble_upsert bubbles
      ⟨u, room.id, cmd.address, cmd.latitude, cmd.longitude, cmd.hours,
        cmd.minutes, cmd.transportation, region, cmd.place_id⟩ =
      Except.error e := by
    simp only [location_bubble_upsert, he]
  refine ⟨⟨e, hup⟩, ?_⟩
  simp only [update_location_bubble_commit, hup]

/-- Witness for C6_invalid_budget_rejected: a zero-budget command. -/
theorem C6_invalid_budget_witness :
    (∃ e, location_bubble_upsert []
        ⟨1, 2, "addr", 0, 0, 0, 0, "walk", "asia", "p"⟩ = Except.error e) ∧
    update_location_bubble_commit 1 ⟨2, "", false, [1]⟩ [2] []
        ⟨"addr", 0, 0, "walk", 0, 0, "p"⟩ "asia" = ([], []) :=
  C6_invalid_budget_rejected 1 ⟨2, "", false, [1]⟩ [2] []
    ⟨"addr", 0, 0, "walk", 0, 0, "p"⟩ "asia" (Or.inl ⟨rfl, rfl⟩)

/-! ## Theorems: C7 -/

/-- C7: when the issuer is allowed and the room lacks the required profile
count (fewer than one bubble with one member, fewer than two with more
members), `get_isochrones` issues no isochrone request, deletes the room's
stored intersection rows, and broadcasts `refresh_area` to the room. -/
theorem C7_insufficient_profiles (u : Nat) (room : RoomRow)
    (bubbles : List LocationBubbleRow) (inters : List IntersectionRow)
    (hallow : user_not_allowed u room = false)
    (h : (room.members.length = 1 ∧ bubbles.length < 1) ∨
      (room.members.length > 1 ∧ bubbles.length < 2)) :
    get_isochrones u room bubbles inters =
      ⟨0, delete_intersection_for_room room.id inters,
        [⟨.group room.id, "refresh_area", ""⟩]⟩ ∧
    ∀ i ∈ (get_isochrones u room bubbles inters).intersections,
      i.room ≠ room.id := by
  have hcond : ¬ (bubbles ≠ [] ∧ ((room.members.length > 1 ∧ bubbles.length > 1) ∨
      (room.members.length = 1 ∧ bubbles.length = 1))) := by
    rintro ⟨hne, hor⟩
    have hpos : 0 < bubbles.length := List.length_pos.mpr hne
    rcases h with ⟨h1, h2⟩ | ⟨h1, h2⟩ <;> rcases hor with ⟨g1, g2⟩ | ⟨g1, g2⟩ <;> omega
  have heq : get_isochrones u room bubbles inters =
      ⟨0, delete_intersection_for_room room.id inters,
        [⟨.group room.id, "refresh_area", ""⟩]⟩ := by
    simp only [get_isochrones, hallow, Bool.false_eq_true, if_false, if_neg hcond]
  refine ⟨heq, ?_⟩
  intro i hi
  rw [heq] at hi
  simp only [delete_intersection_for_room, List.mem_filter, Bool.not_eq_eq_eq_not,
    Bool.not_true, beq_eq_false_iff_ne, ne_eq] at hi
  exact hi.2

/-- Witness for C7_insufficient_profiles: a two-member room with no bubble. -/
theorem C7_insufficient_witness :
    (get_isochrones 1 ⟨3, "", false, [1, 2]⟩ [] [⟨3, "Polygon", [], 0, 0⟩] =
      ⟨0, delete_intersection_for_room 3 [⟨3, "Polygon", [], 0, 0⟩],
        [⟨.group 3, "refresh_area", ""⟩]⟩) ∧
    ∀ i ∈ (get_isochrones 1 ⟨3, "", false, [1, 2]⟩ []
        [⟨3, "Polygon", [], 0, 0⟩]).intersections, i.room ≠ 3 :=
  C7_insufficient_profiles 1 ⟨3, "", false, [1, 2]⟩ [] [⟨3, "Polygon", [], 0, 0⟩]
    (by decide) (Or.inr ⟨by decide, by decide⟩)

/-! ## Theorems: C8 -/

/-- C8 (code bug): a malformed response makes `get_region_isochrone` return
`None`, but the gathered list keeps that `None` instead of dropping the tuple,
and `handle_update_location_bubble` subscripts it — the command task raises
`TypeError` rather than continuing with the remaining 17 responses. -/
theorem C8_none_entry_raises :
    get_region_isochrone .nonJson "africa" "transit" = none ∧
    get_region_isochrone .wrongShape "asia" "walk" = none ∧
    process_region_isochrones
        [get_region_isochrone (.ok [[[(0, 0), (0, 1), (1, 0), (0, 0)]]]) "africa" "walk",
         get_region_isochrone .nonJson "africa" "transit"] =
      Except.error "TypeError: NoneType object is not subscriptable" :=
  ⟨rfl, rfl, rfl⟩

/-! ## Notification retrieval (`get_user_notifications`, consumers.py 327-361) -/

/-- The fields of a `Notification` row relevant to retrieval: recipient, room,
`auto_now_add` timestamp, and read flag (payload columns only travel along). -/
structure NotificationRow where
  user : Nat
  room : Nat
  timestamp : Nat
  read : Bool
deriving DecidableEq

/-- `self.user.notification_set.filter(room=self.room).update(read=True)`. -/
def mark_room_notifications_read (u room : Nat) (rows : List NotificationRow) :
    List NotificationRow :=
  rows.map fun n => if n.user = u ∧ n.room = room then { n with read := true } else n

/-- The ordering of `.order_by("room", "-timestamp")`: room ascending, then
timestamp descending. -/
def roomTsLE (a b : NotificationRow) : Prop :=
  a.room < b.room ∨ (a.room = b.room ∧ b.timestamp ≤ a.timestamp)

instance : DecidableRel roomTsLE := fun a b => by unfold roomTsLE; infer_instance

instance : IsTotal NotificationRow roomTsLE :=
  ⟨fun a b => by unfold roomTsLE; omega⟩

instance : IsTrans NotificationRow roomTsLE :=
  ⟨fun a b c hab hbc => by unfold roomTsLE at *; omega⟩

/-- The ordering of `notifications.sort(key=itemgetter("timestamp"),
reverse=True)`: timestamp descending. -/
def tsGE (a b : NotificationRow) : Prop := b.timestamp ≤ a.timestamp

instance : DecidableRel tsGE := fun a b => by unfold tsGE; infer_instance

instance : IsTotal NotificationRow tsGE := ⟨fun a b => by unfold tsGE; omega⟩

instance : IsTrans NotificationRow tsGE :=
  ⟨fun a b c hab hbc => by unfold tsGE at *; omega⟩

/-- Sort key of `notifications.sort(key=itemgetter("read"))`: `False < True`. -/
def readRank (b : Bool) : Nat := if b then 1 else 0

/-- The ordering of the final stable sort by the read flag. -/
def readLE (a b : NotificationRow) : Prop := readRank a.read ≤ readRank b.read

instance : DecidableRel readLE := fun a b => by unfold readLE; infer_instance

instance : IsTotal NotificationRow readLE :=
  ⟨fun a b => Nat.le_total (readRank a.read) (readRank b.read)⟩

instance : IsTrans NotificationRow readLE :=
  ⟨fun _ _ _ hab hbc => Nat.le_trans hab hbc⟩

/-- `.distinct("room")` on the (room asc, timestamp desc) ordering: Postgres
DISTINCT ON keeps the first row of each consecutive room group; `prev` carries
the room of the last kept row. -/
def distinctOnRoomAux : Option Nat → List NotificationRow → List NotificationRow
  | _, [] => []
  | prev, a :: l =>
      if prev = some a.room then distinctOnRoomAux prev l
      else a :: distinctOnRoomAux (some a.room) l

/-- The `.order_by("room", "-timestamp").distinct("room")` queryset stage. -/
def distinctOnRoom (l : List NotificationRow) : List NotificationRow :=
  distinctOnRoomAux none (List.insertionSort roomTsLE l)

/-- `get_user_notifications`: mark the current room's rows read, list the
member's rows across all rooms reduced to one row per room (the most recent),
then the two stable Python sorts: timestamp descending, then read flag
ascending. Returns the reply list together with the updated store. -/
def get_user_notifications (u room : Nat) (rows : List NotificationRow) :
    List NotificationRow × List NotificationRow :=
  (List.insertionSort readLE (List.insertionSort tsGE (distinctOnRoom
      ((mark_room_notifications_read u room rows).filter fun n => n.user == u))),
    mark_room_notifications_read u room rows)

/-! ## Theorems: C5 -/

/-- Marking the current room's rows read twice equals marking them once. -/
theorem mark_room_notifications_read_idem (u room : Nat)
    (rows : List NotificationRow) :
    mark_room_notifications_read u room
        (mark_room_notifications_read u room rows) =
      mark_room_notifications_read u room rows := by
  unfold mark_room_notifications_read
  rw [List.map_map]
  apply List.map_congr_left
  intro a _
  by_cases h : a.user = u ∧ a.room = room
  · simp [h]
  · simp [h]

/-- C5, counterexample: fetching notifications in room 1 leaves the member's
row in room 2 unread — the read-marking side effect is scoped to the current
room, not to all of the member's rooms. -/
theorem C5_other_room_stays_unread :
    (get_user_notifications 1 1 [⟨1, 2, 0, false⟩]).2 = [⟨1, 2, 0, false⟩] ∧
    ¬ (∀ n ∈ (get_user_notifications 1 1 [⟨1, 2, 0, false⟩]).2,
        n.user = 1 → n.read = true) := by
  constructor
  · rfl
  · decide

/-- C5 (amended): with no new events in between, two consecutive notification
fetches return the same reply list, and after the first fetch every
notification row of the member in the room the fetch was issued from is
marked read. -/
theorem C5_fetch_idempotent (u room : Nat) (rows : List NotificationRow) :
    (get_user_notifications u room
        ((get_user_notifications u room rows).2)).1 =
      (get_user_notifications u room rows).1 ∧
    ∀ n ∈ (get_user_notifications u room rows).2,
      n.user = u → n.room = room → n.read = true := by
  constructor
  · show (get_user_notifications u room
        (mark_room_notifications_read u room rows)).1 = _
    dsimp only [get_user_notifications]
    rw [mark_room_notifications_read_idem]
  · intro n hn hu hr
    dsimp only [get_user_notifications] at hn
    unfold mark_room_notifications_read at hn
    simp only [List.mem_map] at hn
    obtain ⟨a, _, rfl⟩ := hn
    by_cases h : a.user = u ∧ a.room = room
    · simp [h]
    · rw [if_neg h] at hu hr
      exact absurd ⟨hu, hr⟩ h

/-- Witness for C5_fetch_idempotent on a one-row store. -/
theorem C5_fetch_idempotent_witness :
    (get_user_notifications 1 1
        ((get_user_notifications 1 1 [⟨1, 1, 0, false⟩]).2)).1 =
      (get_user_notifications 1 1 [⟨1, 1, 0, false⟩]).1 ∧
    NotificationRow.read ⟨1, 1, 0, true⟩ = true :=
  ⟨(C5_fetch_idempotent 1 1 [⟨1, 1, 0, false⟩]).1,
    (C5_fetch_idempotent 1 1 [⟨1, 1, 0, false⟩]).2 ⟨1, 1, 0, true⟩
      (by decide) rfl rfl⟩

/-! ## Theorems: C9 -/

/-- The claimed output ordering: unread rows before read rows, ties within a
read-status group broken by timestamp descending. -/
def notifOrdOK (a b : NotificationRow) : Prop :=
  (a.read = false ∧ b.read = true) ∨ (a.read = b.read ∧ b.timestamp ≤ a.timestamp)

/-- A rank comparison plus a timestamp bound yields the claimed ordering. -/
theorem notifOrdOK_of_rank_le (x y : NotificationRow)
    (h : readRank x.read ≤ readRank y.read) (hts : y.timestamp ≤ x.timestamp) :
    notifOrdOK x y := by
  unfold notifOrdOK
  unfold readRank at h
  cases hx : x.read <;> cases hy : y.read <;> simp_all

/-- The claimed ordering implies the rank comparison. -/
theorem rank_le_of_notifOrdOK (x y : NotificationRow) (h : notifOrdOK x y) :
    readRank x.read ≤ readRank y.read := by
  unfold notifOrdOK at h
  unfold readRank
  rcases h with ⟨hx, hy⟩ | ⟨hxy, _⟩ <;> simp_all

/-- Stability of the final read-flag insertion: inserting a row whose
timestamp dominates a list already in the claimed ordering preserves it. -/
theorem orderedInsert_readLE_ordOK (a : NotificationRow)
    (s : List NotificationRow) (hs : s.Pairwise notifOrdOK)
    (hts : ∀ b ∈ s, b.timestamp ≤ a.timestamp) :
    (List.orderedInsert readLE a s).Pairwise notifOrdOK := by
  induction s with
  | nil => simp
  | cons b s ih =>
      obtain ⟨hb, hs'⟩ := List.pairwise_cons.mp hs
      rw [List.orderedInsert]
      by_cases hab : readLE a b
      · rw [if_pos hab]
        refine List.Pairwise.cons ?_ hs
        intro c hc
        have hcts : c.timestamp ≤ a.timestamp := hts c hc
        have hbc : readRank b.read ≤ readRank c.read := by
          rcases List.mem_cons.mp hc with rfl | hc'
          · exact Nat.le_refl _
          · exact rank_le_of_notifOrdOK b c (hb c hc')
        exact notifOrdOK_of_rank_le a c (Nat.le_trans hab hbc) hcts
      · rw [if_neg hab]
        have hba : b.read = false ∧ a.read = true := by
          unfold readLE readRank at hab
          cases ha : a.read <;> cases hbr : b.read <;> simp_all
        refine List.Pairwise.cons ?_ (ih hs' fun c hc => hts c (List.mem_cons_of_mem b hc))
        intro x hx
        rcases (List.mem_orderedInsert readLE).mp hx with rfl | hx'
        · exact Or.inl hba
        · exact hb x hx'

/-- The Python-stable sort by the read flag of a timestamp-descending list
yields a list in the claimed ordering. -/
theorem insertionSort_readLE_stable (l : List NotificationRow)
    (hl : l.Pairwise tsGE) :
    (List.insertionSort readLE l).Pairwise notifOrdOK := by
  induction l with
  | nil => simp
  | cons a l ih =>
      obtain ⟨ha, hl'⟩ := List.pairwise_cons.mp hl
      rw [List.insertionSort]
      apply orderedInsert_readLE_ordOK a _ (ih hl')
      intro b hb
      exact ha b ((List.perm_insertionSort readLE l).mem_iff.mp hb)

/-- What DISTINCT ON keeps from a (room asc, timestamp desc) sorted list:
strictly ascending rooms, every kept row present in the input, rooms strictly
above the previously kept room, and each kept row's timestamp maximal among
its room's rows. -/
theorem distinctOnRoomAux_spec :
    ∀ (l : List NotificationRow) (prev : Option Nat),
      l.Pairwise roomTsLE →
      (∀ v, prev = some v → ∀ y ∈ l, v ≤ y.room) →
      ((distinctOnRoomAux prev l).Pairwise fun A B => A.room < B.room) ∧
      ∀ x ∈ distinctOnRoomAux prev l,
        (∀ v, prev = some v → v < x.room) ∧ x ∈ l ∧
          ∀ y ∈ l, y.room = x.room → y.timestamp ≤ x.timestamp := by
  intro l
  induction l with
  | nil => intro prev _ _; simp [distinctOnRoomAux]
  | cons a l ih =>
      intro prev hs hlb
      obtain ⟨ha, hl'⟩ := List.pairwise_cons.mp hs
      rw [distinctOnRoomAux]
      by_cases hp : prev = some a.room
      · rw [if_pos hp]
        have hlb' : ∀ v, prev = some v → ∀ y ∈ l, v ≤ y.room := by
          intro v hv y hy
          have hva : v = a.room := by
            rw [hp] at hv
            exact (Option.some.inj hv).symm
          have h2 : a.room ≤ y.room := by
            have := ha y hy
            unfold roomTsLE at this
            omega
          omega
        obtain ⟨pw, spec⟩ := ih prev hl' hlb'
        refine ⟨pw, ?_⟩
        intro x hx
        obtain ⟨hbound, hmem, hmax⟩ := spec x hx
        refine ⟨hbound, List.mem_cons_of_mem a hmem, ?_⟩
        intro y hy hyr
        rcases List.mem_cons.mp hy with rfl | hy'
        · exfalso
          have := hbound y.room hp
          omega
        · exact hmax y hy' hyr
      · rw [if_neg hp]
        have hlb2 : ∀ v, some a.room = some v → ∀ y ∈ l, v ≤ y.room := by
          intro v hv y hy
          have hva : a.room = v := Option.some.inj hv
          have h2 : a.room ≤ y.room := by
            have := ha y hy
            unfold roomTsLE at this
            omega
          omega
        obtain ⟨pw, spec⟩ := ih (some a.room) hl' hlb2
        constructor
        · refine List.Pairwise.cons ?_ pw
          intro x hx
          exact (spec x hx).1 a.room rfl
        · intro x hx
          rcases List.mem_cons.mp hx with rfl | hx'
          · refine ⟨?_, List.mem_cons_self _ _, ?_⟩
            · intro v hv
              have h1 : v ≤ x.room := hlb v hv x (List.mem_cons_self _ _)
              have h2 : v ≠ x.room := fun he => hp (by rw [hv, he])
              omega
            · intro y hy hyr
              rcases List.mem_cons.mp hy with rfl | hy'
              · omega
              · have := ha y hy'
                unfold roomTsLE at this
                omega
          · obtain ⟨hbound, hmem, hmax⟩ := spec x hx'
            have hax : a.room < x.room := hbound a.room rfl
            refine ⟨?_, List.mem_cons_of_mem a hmem, ?_⟩
            · intro v hv
              have h1 : v ≤ a.room := hlb v hv a (List.mem_cons_self _ _)
              omega
            · intro y hy hyr
              rcases List.mem_cons.mp hy with rfl | hy'
              · omega
              · exact hmax y hy' hyr

/-- C9: the notification fetch reply has at most one row per room, is ordered
with unread rows before read rows and ties broken by timestamp descending,
and every reply row is one of the member's rows carrying the maximal timestamp
among that room's rows. -/
theorem C9_notification_listing (u room : Nat) (rows : List NotificationRow) :
    ((get_user_notifications u room rows).1.Pairwise
      fun A B => A.room ≠ B.room) ∧
    ((get_user_notifications u room rows).1.Pairwise notifOrdOK) ∧
    ∀ x ∈ (get_user_notifications u room rows).1,
      x ∈ (mark_room_notifications_read u room rows).filter (fun n => n.user == u) ∧
        ∀ y ∈ (mark_room_notifications_read u room rows).filter
            (fun n => n.user == u),
          y.room = x.room → y.timestamp ≤ x.timestamp := by
  dsimp only [get_user_notifications]
  set mine := (mark_room_notifications_read u room rows).filter
    (fun n => n.user == u) with hmine
  have hsorted : (List.insertionSort roomTsLE mine).Pairwise roomTsLE :=
    List.sorted_insertionSort roomTsLE mine
  have hlb : ∀ v : Nat, (none : Option Nat) = some v →
      ∀ y ∈ List.insertionSort roomTsLE mine, v ≤ y.room := by
    intro v hv
    exact absurd hv (by simp)
  obtain ⟨pwlt, spec⟩ :=
    distinctOnRoomAux_spec (List.insertionSort roomTsLE mine) none hsorted hlb
  have hperm : List.Perm
      (List.insertionSort readLE (List.insertionSort tsGE (distinctOnRoom mine)))
      (distinctOnRoom mine) :=
    (List.perm_insertionSort readLE _).trans (List.perm_insertionSort tsGE _)
  refine ⟨?_, ?_, ?_⟩
  · have pwne : (distinctOnRoom mine).Pairwise fun A B => A.room ≠ B.room := by
      unfold distinctOnRoom
      exact pwlt.imp fun h => Nat.ne_of_lt h
    exact (List.Perm.pairwise_iff (fun h => Ne.symm h) hperm).mpr pwne
  · exact insertionSort_readLE_stable _
      (List.sorted_insertionSort tsGE (distinctOnRoom mine))
  · intro x hx
    have hxd : x ∈ distinctOnRoom mine := hperm.mem_iff.mp hx
    rw [distinctOnRoom] at hxd
    obtain ⟨_, hmem, hmax⟩ := spec x hxd
    refine ⟨(List.perm_insertionSort roomTsLE mine).mem_iff.mp hmem, ?_⟩
    intro y hy hyr
    exact hmax y ((List.perm_insertionSort roomTsLE mine).mem_iff.mpr hy) hyr

/-- Witness for C9_notification_listing on a two-row store. -/
theorem C9_notification_listing_witness :
    ((get_user_notifications 1 1 [⟨1, 1, 5, false⟩, ⟨1, 1, 3, false⟩]).1.Pairwise
      fun A B => A.room ≠ B.room) ∧
    NotificationRow.timestamp ⟨1, 1, 3, true⟩ ≤
      NotificationRow.timestamp ⟨1, 1, 5, true⟩ :=
  ⟨(C9_notification_listing 1 1 [⟨1, 1, 5, false⟩, ⟨1, 1, 3, false⟩]).1,
    ((C9_notification_listing 1 1 [⟨1, 1, 5, false⟩, ⟨1, 1, 3, false⟩]).2.2
        ⟨1, 1, 5, true⟩ (by decide)).2 ⟨1, 1, 3, true⟩ (by decide) rfl⟩

end Mapwhere
